import Mathlib

/-!
Verification of the amortization engine in `mortgage-calc.py`.

The numerical core is embedded shallowly:
* the algebraic functions (payment solver, schedule builders, combiner) are
  modelled over `ℚ`, with Python's exact arithmetic read at field level;
  a float division whose denominator is zero raises `ZeroDivisionError` in
  Python, which is modelled by an `Option` result;
* the payoff inversion uses `np.log`, modelled over `ℝ` with `Real.log`;
  the branches that produce a NaN in floating point (logarithm of a negative
  argument, logarithm of `1 + monthly_rate` with `1 + monthly_rate < 0`) are
  mapped to the sentinel the code returns after its `isnan` checks, and the
  branch where the log argument is exactly `0` (so the numerator is `+inf`
  and `int(np.ceil(inf))` raises `OverflowError`) is mapped to a distinct
  error constructor;
* calendar dates are modelled as integer day counts, `timedelta(days = k)`
  as adding `k`.
-/

/-- Embeds `calculate_monthly_payment` (mortgage-calc.py lines 7-13).
`none` models the `ZeroDivisionError` Python raises when the denominator
`(1 + monthly_rate)^months - 1` is zero. -/
def calculate_monthly_payment (principal annual_rate : ℚ) (months : ℕ) : Option ℚ :=
  let monthly_rate := annual_rate / 12 / 100
  if (1 + monthly_rate) ^ months - 1 = 0 then none
  else some (principal * (monthly_rate * (1 + monthly_rate) ^ months) /
    ((1 + monthly_rate) ^ months - 1))

/-- The balance array entries produced by the schedule loop shared verbatim by
`calculate_annuity_loan` (lines 39-45) and `calculate_amortization_schedule`
(lines 83-89): `balance[0] = loan_amount` and
`balance[month] = balance[month-1] - (monthly_payment - balance[month-1] * monthly_rate)`. -/
def balanceAt (loan_amount monthly_rate monthly_payment : ℚ) : ℕ → ℚ
  | 0 => loan_amount
  | month + 1 =>
      balanceAt loan_amount monthly_rate monthly_payment month -
        (monthly_payment - balanceAt loan_amount monthly_rate monthly_payment month * monthly_rate)

/-- The `monthly_interest` array entries of the same loop: `0` at index `0`
(the arrays are zero-initialised and the loop starts at month 1), and
`balance[month-1] * monthly_rate` at index `month ≥ 1`. -/
def interestAt (loan_amount monthly_rate monthly_payment : ℚ) : ℕ → ℚ
  | 0 => 0
  | month + 1 => balanceAt loan_amount monthly_rate monthly_payment month * monthly_rate

/-- The `monthly_principal` array entries of the same loop: `0` at index `0`,
and `monthly_payment - interest` at index `month ≥ 1`. -/
def principalAt (loan_amount monthly_rate monthly_payment : ℚ) : ℕ → ℚ
  | 0 => 0
  | month + 1 =>
      monthly_payment - interestAt loan_amount monthly_rate monthly_payment (month + 1)

/-- The quadruple `(balance, monthly_interest, monthly_principal, monthly_payment)`
returned by both schedule builders. -/
structure Schedule where
  balance : List ℚ
  monthly_interest : List ℚ
  monthly_principal : List ℚ
  monthly_payment : ℚ
deriving DecidableEq

/-- Embeds `calculate_annuity_loan` (lines 15-47): the payment is fixed as the
initial-repayment slice plus the first month's interest, the arrays have
`years * 12 + 1` entries indexed from `0`. `property_value` is bound but never
used, exactly as in the source. -/
def calculate_annuity_loan (loan_amount property_value initial_repayment_rate annual_rate : ℚ)
    (years : ℕ) : Schedule :=
  let monthly_rate := annual_rate / 12 / 100
  let initial_monthly_repayment := loan_amount * (initial_repayment_rate / 12 / 100)
  let initial_monthly_interest := loan_amount * monthly_rate
  let monthly_payment := initial_monthly_repayment + initial_monthly_interest
  let months := years * 12
  ⟨(List.range (months + 1)).map (balanceAt loan_amount monthly_rate monthly_payment),
   (List.range (months + 1)).map (interestAt loan_amount monthly_rate monthly_payment),
   (List.range (months + 1)).map (principalAt loan_amount monthly_rate monthly_payment),
   monthly_payment⟩

/-- Embeds `calculate_amortization_schedule` (lines 71-91): solves the payment
with `calculate_monthly_payment` and runs the same loop over `months + 1`
array slots. `none` propagates the solver's `ZeroDivisionError`. -/
def calculate_amortization_schedule (principal annual_rate : ℚ) (months : ℕ) :
    Option Schedule :=
  let monthly_rate := annual_rate / 12 / 100
  (calculate_monthly_payment principal annual_rate months).map fun monthly_payment =>
    ⟨(List.range (months + 1)).map (balanceAt principal monthly_rate monthly_payment),
     (List.range (months + 1)).map (interestAt principal monthly_rate monthly_payment),
     (List.range (months + 1)).map (principalAt principal monthly_rate monthly_payment),
     monthly_payment⟩

/-- The dictionary returned by `calculate_combined_loan` (lines 118-134). -/
structure CombinedLoanResult where
  kfw : Schedule
  kfw_years : ℕ
  bank : Schedule
  bank_years : ℕ
  total_monthly_payment : ℚ
deriving DecidableEq

/-- Embeds `calculate_combined_loan` (lines 103-134): builds each loan's
schedule with `calculate_annuity_loan` using that loan's own parameters and
sums the two payments. `liquidity` is bound but never used, as in the source. -/
def calculate_combined_loan (property_value liquidity kfw_loan_amount kfw_initial_repayment
    kfw_interest_rate : ℚ) (kfw_years : ℕ) (bank_loan_amount bank_initial_repayment
    bank_interest_rate : ℚ) (bank_years : ℕ) : CombinedLoanResult :=
  let k := calculate_annuity_loan kfw_loan_amount property_value kfw_initial_repayment
    kfw_interest_rate kfw_years
  let b := calculate_annuity_loan bank_loan_amount property_value bank_initial_repayment
    bank_interest_rate bank_years
  ⟨k, kfw_years, b, bank_years, k.monthly_payment + b.monthly_payment⟩

/-- The schedule-shape invariant claimed by the spec for both builders:
arrays of length `n + 1`, index `0` the initial state, and for each month
`1 ≤ m ≤ n` the breakdown identities
`interest[m] + principal[m] = monthly_payment`,
`interest[m] = balance[m-1] * monthly_rate`,
`balance[m] = balance[m-1] - principal[m]`. -/
def ScheduleInvariant (S : Schedule) (principal monthly_rate : ℚ) (n : ℕ) : Prop :=
  S.balance.length = n + 1 ∧
  S.monthly_interest.length = n + 1 ∧
  S.monthly_principal.length = n + 1 ∧
  S.balance[0]? = some principal ∧
  S.monthly_interest[0]? = some 0 ∧
  S.monthly_principal[0]? = some 0 ∧
  ∀ m, 1 ≤ m → m ≤ n →
    ∃ bPrev b i pr,
      S.balance[m - 1]? = some bPrev ∧
      S.balance[m]? = some b ∧
      S.monthly_interest[m]? = some i ∧
      S.monthly_principal[m]? = some pr ∧
      i + pr = S.monthly_payment ∧
      i = bPrev * monthly_rate ∧
      b = bPrev - pr

/-- Result of `calculate_full_payoff_period` (lines 49-69): a month count,
the `float('inf')` "cannot be paid off" sentinel, or the `OverflowError`
raised by `int(np.ceil(inf))` when the logarithm argument is exactly zero. -/
inductive PayoffResult where
  | months : ℤ → PayoffResult
  | unpayable : PayoffResult
  | intOverflow : PayoffResult
deriving DecidableEq

open scoped Classical in
/-- Embeds `calculate_full_payoff_period` (lines 49-69).
Branches mirror the float behaviour for `monthly_payment ≠ 0` and
`1 + monthly_rate > 0` (the region every claim concerns): a negative log
argument makes the numerator NaN (caught by `np.isnan` → `inf` sentinel), a
zero log argument makes the numerator `+inf`, which survives the `isnan`
checks and makes `int(np.ceil(...))` raise `OverflowError`. -/
noncomputable def calculate_full_payoff_period
    (remaining_balance monthly_payment annual_rate : ℝ) : PayoffResult :=
  if remaining_balance ≤ 0 then .months 0
  else
    let monthly_rate := annual_rate / 12 / 100
    let log_argument := 1 - monthly_rate * remaining_balance / monthly_payment
    let denominator := Real.log (1 + monthly_rate)
    if denominator = 0 then .unpayable
    else if log_argument < 0 then .unpayable
    else if 1 + monthly_rate < 0 then .unpayable
    else if log_argument = 0 then .intOverflow
    else .months ⌈-Real.log log_argument / denominator⌉

/-- Result of `calculate_payoff_date` (lines 136-158): a date (integer day
count), the `None` "cannot be calculated" sentinel, or the `OverflowError`
of `int(np.ceil(inf))`. -/
inductive DateResult where
  | ok : ℤ → DateResult
  | notComputable : DateResult
  | intOverflow : DateResult
deriving DecidableEq

open scoped Classical in
/-- Embeds `calculate_payoff_date` (lines 136-158), with the same
branch modelling as `calculate_full_payoff_period`. `balance.headI` models
`balance[0]` and `balance.getLastD 0` models `balance[-1]` (all callers pass
nonempty arrays). -/
noncomputable def calculate_payoff_date (balance : List ℝ) (monthly_payment annual_rate : ℝ)
    (start_date : ℤ) (loan_term_years : ℕ) : DateResult :=
  if balance.headI ≤ 0 then .ok start_date
  else
    let expected_end_date := start_date + 365 * (loan_term_years : ℤ)
    let monthly_rate := annual_rate / 12 / 100
    let remaining_balance := balance.getLastD 0
    if remaining_balance ≤ 0 then .ok expected_end_date
    else
      let log_argument := 1 - monthly_rate * remaining_balance / monthly_payment
      let denominator := Real.log (1 + monthly_rate)
      if denominator = 0 then .notComputable
      else if log_argument < 0 then .notComputable
      else if 1 + monthly_rate < 0 then .notComputable
      else if log_argument = 0 then .intOverflow
      else .ok (expected_end_date + 30 * ⌈-Real.log log_argument / denominator⌉)

theorem getElem?_range_map {α : Type} (f : ℕ → α) {n m : ℕ} (h : m < n) :
    ((List.range n).map f)[m]? = some (f m) := by
  simp [List.getElem?_map, List.getElem?_range, h]

theorem scheduleInvariant_build (L r pay : ℚ) (n : ℕ) :
    ScheduleInvariant
      ⟨(List.range (n + 1)).map (balanceAt L r pay),
       (List.range (n + 1)).map (interestAt L r pay),
       (List.range (n + 1)).map (principalAt L r pay), pay⟩ L r n := by
  refine ⟨by simp, by simp, by simp, ?_, ?_, ?_, ?_⟩
  · rw [getElem?_range_map _ n.succ_pos]; rfl
  · rw [getElem?_range_map _ n.succ_pos]; rfl
  · rw [getElem?_range_map _ n.succ_pos]; rfl
  · intro m h1 h2
    obtain ⟨k, rfl⟩ : ∃ k, m = k + 1 := ⟨m - 1, (Nat.succ_pred_eq_of_pos h1).symm⟩
    refine ⟨balanceAt L r pay k, balanceAt L r pay (k + 1),
      interestAt L r pay (k + 1), principalAt L r pay (k + 1), ?_, ?_, ?_, ?_, ?_, ?_, ?_⟩
    · rw [show k + 1 - 1 = k from rfl, getElem?_range_map _ (by omega)]
    · rw [getElem?_range_map _ (by omega)]
    · rw [getElem?_range_map _ (by omega)]
    · rw [getElem?_range_map _ (by omega)]
    · show interestAt L r pay (k + 1) + (pay - interestAt L r pay (k + 1)) = pay
      ring
    · rfl
    · show balanceAt L r pay k - (pay - balanceAt L r pay k * r) =
        balanceAt L r pay k - (pay - interestAt L r pay (k + 1))
      rfl

/-- C1: for every principal > 0, annual rate `a` with 0 < a ≤ 100 and integer
term n ≥ 1, `calculate_monthly_payment` returns exactly
`principal * r * (1+r)^n / ((1+r)^n - 1)` with `r = a/12/100`, and that value
is positive (and, in the exact rational semantics, automatically finite). -/
theorem claim_C1 (P a : ℚ) (n : ℕ) (hP : 0 < P) (ha : 0 < a) (ha' : a ≤ 100) (hn : 1 ≤ n) :
    calculate_monthly_payment P a n =
      some (P * (a / 12 / 100) * (1 + a / 12 / 100) ^ n / ((1 + a / 12 / 100) ^ n - 1)) ∧
    0 < P * (a / 12 / 100) * (1 + a / 12 / 100) ^ n / ((1 + a / 12 / 100) ^ n - 1) := by
  have hr : 0 < a / 12 / 100 := by positivity
  have hpow : 1 < (1 + a / 12 / 100) ^ n := one_lt_pow₀ (by linarith) (by omega)
  have hden : ¬((1 + a / 12 / 100) ^ n - 1 = 0) := by intro h; linarith
  constructor
  · rw [calculate_monthly_payment]
    simp only [if_neg hden]
    ring_nf
  · have hd : 0 < (1 + a / 12 / 100) ^ n - 1 := by linarith
    positivity

theorem claim_C1_witness :
    calculate_monthly_payment 100 12 1 =
      some (100 * ((12 : ℚ) / 12 / 100) * (1 + (12 : ℚ) / 12 / 100) ^ (1 : ℕ) /
        ((1 + (12 : ℚ) / 12 / 100) ^ (1 : ℕ) - 1)) ∧
    0 < 100 * ((12 : ℚ) / 12 / 100) * (1 + (12 : ℚ) / 12 / 100) ^ (1 : ℕ) /
      ((1 + (12 : ℚ) / 12 / 100) ^ (1 : ℕ) - 1) :=
  claim_C1 100 12 1 (by norm_num) (by norm_num) (by norm_num) (by norm_num)

/-- C2: each schedule produced by `calculate_amortization_schedule` (with
principal > 0, rate > 0, term n ≥ 1) or `calculate_annuity_loan` (over
`y * 12` months) has arrays of length n + 1 with index 0 the initial state
(balance = principal, interest = 0, principal portion = 0), and for every
month 1 ≤ m ≤ n: `interest[m] + principal[m] = monthly_payment`,
`interest[m] = balance[m-1] * monthly_rate`, and
`balance[m] = balance[m-1] - principal[m]`. -/
theorem claim_C2 (P a : ℚ) (n : ℕ) (L v p : ℚ) (y : ℕ)
    (hP : 0 < P) (hL : 0 < L) (ha : 0 < a) (hn : 1 ≤ n) :
    (∃ S, calculate_amortization_schedule P a n = some S ∧
      ScheduleInvariant S P (a / 12 / 100) n) ∧
    ScheduleInvariant (calculate_annuity_loan L v p a y) L (a / 12 / 100) (y * 12) := by
  constructor
  · have hr : 0 < a / 12 / 100 := by positivity
    have hpow : 1 < (1 + a / 12 / 100) ^ n := one_lt_pow₀ (by linarith) (by omega)
    have hden : ¬((1 + a / 12 / 100) ^ n - 1 = 0) := by intro h; linarith
    have hcm : calculate_monthly_payment P a n =
        some (P * ((a / 12 / 100) * (1 + a / 12 / 100) ^ n) / ((1 + a / 12 / 100) ^ n - 1)) := by
      rw [calculate_monthly_payment]
      simp only [if_neg hden]
    refine ⟨_, ?_, scheduleInvariant_build P (a / 12 / 100)
      (P * ((a / 12 / 100) * (1 + a / 12 / 100) ^ n) / ((1 + a / 12 / 100) ^ n - 1)) n⟩
    rw [calculate_amortization_schedule, hcm]
    rfl
  · exact scheduleInvariant_build L (a / 12 / 100)
      (L * (p / 12 / 100) + L * (a / 12 / 100)) (y * 12)

theorem claim_C2_witness :
    (∃ S, calculate_amortization_schedule 100 12 1 = some S ∧
      ScheduleInvariant S 100 ((12 : ℚ) / 12 / 100) 1) ∧
    ScheduleInvariant (calculate_annuity_loan 100 0 12 12 1) 100 ((12 : ℚ) / 12 / 100)
      (1 * 12) :=
  claim_C2 100 12 1 100 0 12 1 (by norm_num) (by norm_num) (by norm_num) (by norm_num)

/-- C3: for payment M > 0 and positive monthly rate `a/12/100` with
`r*B/M < 1`, `calculate_full_payoff_period` returns 0 months when the
remaining balance B is ≤ 0, and otherwise returns the closed-form count
`⌈-log(1 - r*B/M) / log(1+r)⌉`, rounded up to the next whole month. -/
theorem claim_C3 (B M a : ℝ) (hM : 0 < M) (ha : 0 < a)
    (hx : a / 12 / 100 * B / M < 1) :
    (B ≤ 0 → calculate_full_payoff_period B M a = .months 0) ∧
    (0 < B → calculate_full_payoff_period B M a =
      .months ⌈-Real.log (1 - a / 12 / 100 * B / M) / Real.log (1 + a / 12 / 100)⌉) := by
  have hr : 0 < a / 12 / 100 := by positivity
  constructor
  · intro hB
    rw [calculate_full_payoff_period, if_pos hB]
  · intro hB
    have hden : Real.log (1 + a / 12 / 100) ≠ 0 :=
      ne_of_gt (Real.log_pos (by linarith))
    have hxpos : 0 < 1 - a / 12 / 100 * B / M := by linarith
    rw [calculate_full_payoff_period, if_neg (not_le.mpr hB)]
    simp only [if_neg hden, if_neg (not_lt.mpr hxpos.le),
      if_neg (by linarith : ¬(1 + a / 12 / 100 < 0)), if_neg (ne_of_gt hxpos)]

theorem claim_C3_witness :
    ((-1 : ℝ) ≤ 0 → calculate_full_payoff_period (-1) 1 12 = .months 0) ∧
    ((0 : ℝ) < -1 → calculate_full_payoff_period (-1) 1 12 =
      .months ⌈-Real.log (1 - (12 : ℝ) / 12 / 100 * (-1) / 1) /
        Real.log (1 + (12 : ℝ) / 12 / 100)⌉) :=
  claim_C3 (-1) 1 12 (by norm_num) (by norm_num) (by norm_num)

/-- C4: the claim states that every input with B > 0, M > 0, monthly rate
r > 0 and `r*B/M ≥ 1` returns the Unpayable sentinel. At the boundary
`r*B/M = 1` exactly (here B = 10, M = 10, annual rate 1200, monthly rate 1)
the log argument is exactly 0, the numerator is `+inf` (not NaN, so the
`isnan` guards do not fire) and `int(np.ceil(inf))` raises `OverflowError`
instead — the `.intOverflow` branch. In the strict interior, as in the
claim's own example `calculate_full_payoff_period 100000 10 5`, the NaN from
the negative log argument is caught and the Unpayable sentinel is returned. -/
theorem claim_C4_behavior :
    calculate_full_payoff_period 10 10 1200 = .intOverflow ∧
    calculate_full_payoff_period 100000 10 5 = .unpayable := by
  constructor
  · have h2 : Real.log (2 : ℝ) ≠ 0 := ne_of_gt (Real.log_pos one_lt_two)
    simp only [calculate_full_payoff_period]
    norm_num [h2]
  · have h3 : Real.log ((241 : ℝ) / 240) ≠ 0 := ne_of_gt (Real.log_pos (by norm_num))
    simp only [calculate_full_payoff_period]
    norm_num [h3]

/-- C5: the claim states that at annual rate exactly 0 the payment solver
degrades to `principal / termMonths`, in particular
`calculate_monthly_payment 120000 0 120 = 1000`. The code instead divides by
`(1+0)^120 - 1 = 0`, raising `ZeroDivisionError` (modelled as `none`), the
unhandled defect the spec records in its design notes. -/
theorem claim_C5_behavior : calculate_monthly_payment 120000 0 120 = none := by
  rw [calculate_monthly_payment]
  norm_num

/-- C6: `calculate_annuity_loan` fixes its monthly payment as
`L * (p/12/100) + L * (a/12/100)` (initial-repayment slice plus first-month
interest) and runs the forward balance recurrence over `y * 12` months. -/
theorem claim_C6 (L v p a : ℚ) (y : ℕ) (hL : 0 < L) (hp : 0 < p) (ha : 0 < a) (hy : 1 ≤ y) :
    (calculate_annuity_loan L v p a y).monthly_payment =
      L * (p / 12 / 100) + L * (a / 12 / 100) ∧
    (∀ m, m ≤ y * 12 → (calculate_annuity_loan L v p a y).balance[m]? =
      some (balanceAt L (a / 12 / 100) (L * (p / 12 / 100) + L * (a / 12 / 100)) m)) ∧
    (∀ m, balanceAt L (a / 12 / 100) (L * (p / 12 / 100) + L * (a / 12 / 100)) (m + 1) =
      balanceAt L (a / 12 / 100) (L * (p / 12 / 100) + L * (a / 12 / 100)) m -
        ((L * (p / 12 / 100) + L * (a / 12 / 100)) -
          balanceAt L (a / 12 / 100) (L * (p / 12 / 100) + L * (a / 12 / 100)) m *
            (a / 12 / 100))) := by
  refine ⟨rfl, ?_, fun m => rfl⟩
  intro m hm
  exact getElem?_range_map _ (by omega)

theorem claim_C6_witness :
    (calculate_annuity_loan 100 0 12 12 1).monthly_payment =
      100 * ((12 : ℚ) / 12 / 100) + 100 * ((12 : ℚ) / 12 / 100) ∧
    (∀ m, m ≤ 1 * 12 → (calculate_annuity_loan 100 0 12 12 1).balance[m]? =
      some (balanceAt 100 ((12 : ℚ) / 12 / 100)
        (100 * ((12 : ℚ) / 12 / 100) + 100 * ((12 : ℚ) / 12 / 100)) m)) ∧
    (∀ m, balanceAt 100 ((12 : ℚ) / 12 / 100)
        (100 * ((12 : ℚ) / 12 / 100) + 100 * ((12 : ℚ) / 12 / 100)) (m + 1) =
      balanceAt 100 ((12 : ℚ) / 12 / 100)
          (100 * ((12 : ℚ) / 12 / 100) + 100 * ((12 : ℚ) / 12 / 100)) m -
        ((100 * ((12 : ℚ) / 12 / 100) + 100 * ((12 : ℚ) / 12 / 100)) -
          balanceAt 100 ((12 : ℚ) / 12 / 100)
              (100 * ((12 : ℚ) / 12 / 100) + 100 * ((12 : ℚ) / 12 / 100)) m *
            ((12 : ℚ) / 12 / 100))) :=
  claim_C6 100 0 12 12 1 (by norm_num) (by norm_num) (by norm_num) (by norm_num)

/-- C7: `calculate_combined_loan` builds each loan's schedule with that loan's
own term (array lengths `kY*12 + 1` and `bY*12 + 1`, never truncated, padded
or mutated — the stored schedules are exactly the per-loan
`calculate_annuity_loan` results), and its total monthly payment is exactly
the sum of the two per-loan payments. -/
theorem claim_C7 (pv liq kA kRep kRate : ℚ) (kY : ℕ) (bA bRep bRate : ℚ) (bY : ℕ) :
    (calculate_combined_loan pv liq kA kRep kRate kY bA bRep bRate bY).kfw =
      calculate_annuity_loan kA pv kRep kRate kY ∧
    (calculate_combined_loan pv liq kA kRep kRate kY bA bRep bRate bY).bank =
      calculate_annuity_loan bA pv bRep bRate bY ∧
    (calculate_combined_loan pv liq kA kRep kRate kY bA bRep bRate bY).kfw.balance.length =
      kY * 12 + 1 ∧
    (calculate_combined_loan pv liq kA kRep kRate kY bA bRep bRate bY).bank.balance.length =
      bY * 12 + 1 ∧
    (calculate_combined_loan pv liq kA kRep kRate kY bA bRep bRate bY).kfw_years = kY ∧
    (calculate_combined_loan pv liq kA kRep kRate kY bA bRep bRate bY).bank_years = bY ∧
    (calculate_combined_loan pv liq kA kRep kRate kY bA bRep bRate bY).total_monthly_payment =
      (calculate_annuity_loan kA pv kRep kRate kY).monthly_payment +
        (calculate_annuity_loan bA pv bRep bRate bY).monthly_payment :=
  ⟨rfl, rfl, by simp [calculate_combined_loan, calculate_annuity_loan],
    by simp [calculate_combined_loan, calculate_annuity_loan], rfl, rfl, rfl⟩

/-- C8: under positive initial balance, positive terminal balance, positive
payment and positive rate, `calculate_payoff_date` returns exactly
`start_date + 365 * termYears + 30 * k` days whenever the payoff solver
returns `k` months for the terminal balance (the fixed 365-day-year /
30-day-month approximation), mirrors the Unpayable sentinel as the
not-computable date, and mirrors the overflow branch. -/
theorem claim_C8 (bal : List ℝ) (M a : ℝ) (d : ℤ) (y : ℕ)
    (h0 : 0 < bal.headI) (hB : 0 < bal.getLastD 0) (hM : 0 < M) (ha : 0 < a) :
    (∀ k : ℤ, calculate_full_payoff_period (bal.getLastD 0) M a = .months k →
      calculate_payoff_date bal M a d y = .ok (d + 365 * (y : ℤ) + 30 * k)) ∧
    (calculate_full_payoff_period (bal.getLastD 0) M a = .unpayable →
      calculate_payoff_date bal M a d y = .notComputable) ∧
    (calculate_full_payoff_period (bal.getLastD 0) M a = .intOverflow →
      calculate_payoff_date bal M a d y = .intOverflow) := by
  have hr : 0 < a / 12 / 100 := by positivity
  have hden : Real.log (1 + a / 12 / 100) ≠ 0 := ne_of_gt (Real.log_pos (by linarith))
  have hpay : calculate_full_payoff_period (bal.getLastD 0) M a =
      if 1 - a / 12 / 100 * bal.getLastD 0 / M < 0 then .unpayable
      else if 1 - a / 12 / 100 * bal.getLastD 0 / M = 0 then .intOverflow
      else .months ⌈-Real.log (1 - a / 12 / 100 * bal.getLastD 0 / M) /
        Real.log (1 + a / 12 / 100)⌉ := by
    rw [calculate_full_payoff_period, if_neg (not_le.mpr hB)]
    simp only [if_neg hden, if_neg (by linarith : ¬(1 + a / 12 / 100 < 0))]
  have hdate : calculate_payoff_date bal M a d y =
      if 1 - a / 12 / 100 * bal.getLastD 0 / M < 0 then .notComputable
      else if 1 - a / 12 / 100 * bal.getLastD 0 / M = 0 then .intOverflow
      else .ok (d + 365 * (y : ℤ) + 30 * ⌈-Real.log (1 - a / 12 / 100 * bal.getLastD 0 / M) /
        Real.log (1 + a / 12 / 100)⌉) := by
    rw [calculate_payoff_date, if_neg (not_le.mpr h0)]
    simp only [if_neg (not_le.mpr hB), if_neg hden,
      if_neg (by linarith : ¬(1 + a / 12 / 100 < 0))]
  rcases lt_trichotomy (1 - a / 12 / 100 * bal.getLastD 0 / M) 0 with hx | hx | hx
  · rw [hpay, hdate, if_pos hx, if_pos hx]
    exact ⟨fun k hk => absurd hk (by simp), fun _ => rfl, fun hk => absurd hk (by simp)⟩
  · rw [hpay, hdate, if_neg (by rw [hx]; exact lt_irrefl 0), if_pos hx,
      if_neg (by rw [hx]; exact lt_irrefl 0), if_pos hx]
    exact ⟨fun k hk => absurd hk (by simp), fun hk => absurd hk (by simp), fun _ => rfl⟩
  · rw [hpay, hdate, if_neg (not_lt.mpr hx.le), if_neg (ne_of_gt hx),
      if_neg (not_lt.mpr hx.le), if_neg (ne_of_gt hx)]
    refine ⟨fun k hk => ?_, fun hk => absurd hk (by simp), fun hk => absurd hk (by simp)⟩
    obtain rfl : (⌈-Real.log (1 - a / 12 / 100 * bal.getLastD 0 / M) /
        Real.log (1 + a / 12 / 100)⌉ : ℤ) = k := by simpa using hk
    rfl

theorem claim_C8_witness :
    (∀ k : ℤ, calculate_full_payoff_period (([5, 2] : List ℝ).getLastD 0) 1 12 = .months k →
      calculate_payoff_date [5, 2] 1 12 0 1 = .ok (0 + 365 * ((1 : ℕ) : ℤ) + 30 * k)) ∧
    (calculate_full_payoff_period (([5, 2] : List ℝ).getLastD 0) 1 12 = .unpayable →
      calculate_payoff_date [5, 2] 1 12 0 1 = .notComputable) ∧
    (calculate_full_payoff_period (([5, 2] : List ℝ).getLastD 0) 1 12 = .intOverflow →
      calculate_payoff_date [5, 2] 1 12 0 1 = .intOverflow) :=
  claim_C8 [5, 2] 1 12 0 1 (by norm_num [List.headI]) (by norm_num [List.getLastD])
    (by norm_num) (by norm_num)

/-- C9: the claim states the schedule builder surfaces a distinct
NegativeAmortization condition when the fixed payment cannot cover a month's
interest. The code has no such condition: at
`calculate_annuity_loan 100000 0 (-1) 5 1` the payment (1000/3) is below the
first month's interest (1250/3), the balance grows past the principal
(balance[1] = 100000 + 250/3), and the result is a plain `Schedule` whose
type carries no flag of any kind. -/
theorem claim_C9_behavior :
    (calculate_annuity_loan 100000 0 (-1) 5 1).monthly_payment = 1000 / 3 ∧
    (calculate_annuity_loan 100000 0 (-1) 5 1).monthly_interest[1]? = some (1250 / 3) ∧
    (1000 / 3 : ℚ) < 1250 / 3 ∧
    (calculate_annuity_loan 100000 0 (-1) 5 1).balance[0]? = some 100000 ∧
    (calculate_annuity_loan 100000 0 (-1) 5 1).balance[1]? = some (100000 + 250 / 3) ∧
    (100000 : ℚ) < 100000 + 250 / 3 := by
  refine ⟨?_, ?_, by norm_num, ?_, ?_, by norm_num⟩ <;>
    norm_num [calculate_annuity_loan, List.getElem?_map, List.getElem?_range,
      interestAt, balanceAt, Option.some.injEq]

/-- C10: `calculate_annuity_loan` is independent of its `property_value`
argument and `calculate_combined_loan` is independent of both `property_value`
and `liquidity`: two calls differing only in those arguments return identical
results in every field. -/
theorem claim_C10 (L p a : ℚ) (y : ℕ) (v1 v2 pv1 pv2 liq1 liq2 kA kRep kRate : ℚ) (kY : ℕ)
    (bA bRep bRate : ℚ) (bY : ℕ) :
    calculate_annuity_loan L v1 p a y = calculate_annuity_loan L v2 p a y ∧
    calculate_combined_loan pv1 liq1 kA kRep kRate kY bA bRep bRate bY =
      calculate_combined_loan pv2 liq2 kA kRep kRate kY bA bRep bRate bY :=
  ⟨rfl, rfl⟩
